import Mathlib

/-!
# Conversation & Negotiation Messaging Flow — shallow embedding

This file embeds the data model and the operations of the conversation /
negotiation / notification subsystem of the marketplace:

* the database tables (`conversations`, `conversation_messages`,
  `negotiations`, `profiles`, `products`) from the SQL migrations,
  including the `update_conversation_last_message` trigger and the
  row-level-security policy on `conversation_messages` updates;
* `handleContactSeller` and `handleNegotiation` from `ProductPage.tsx`;
* `handleNegotiationAction` from `NegotiationsTab.tsx`;
* `ensureUserProfile` from the profile utilities;
* `fetchNotifications`, `markAsRead`, `markAllAsRead` and `unreadCount`
  from the notification provider;
* `parseProductMessage` / `renderMessage` from `ChatInterface.tsx`.

Timestamps are modelled as natural numbers supplied by a logical clock on
the database state; generated row ids are drawn from a `nextId` counter.
-/

namespace ChattyCommerce

/-- Row of `public.conversations` (migration 20250624…): unique per
(buyer_id, seller_id, product_id); `last_message_at` maintained by the
insert trigger on `conversation_messages`. -/
structure Conversation where
  id : Nat
  buyer_id : String
  seller_id : String
  product_id : String
  last_message_at : Nat
  created_at : Nat
deriving Repr, DecidableEq

/-- Row of `public.conversation_messages`: `message_type` defaults to
"text", `is_read` defaults to `false`. -/
structure ConversationMessage where
  id : Nat
  conversation_id : Nat
  sender_id : String
  message : String
  message_type : String
  is_read : Bool
  created_at : Nat
deriving Repr, DecidableEq

/-- Row of `public.negotiations` (migration 20250623…): status is one of
pending / accepted / rejected (the schema comment also names
counter_offered, unreachable through the UI). -/
structure Negotiation where
  id : Nat
  product_id : String
  buyer_id : String
  seller_id : String
  original_price : Int
  proposed_price : Int
  message : String
  status : String
  created_at : Nat
  updated_at : Nat
deriving Repr, DecidableEq

/-- Row of `public.profiles` (fields used by the profile utilities). -/
structure Profile where
  user_id : String
  full_name : String
  email : Option String
deriving Repr, DecidableEq

/-- Row of `public.products` (fields used by the messaging flow). -/
structure Product where
  id : String
  name : String
  price : Int
  seller_id : String
deriving Repr, DecidableEq

/-- The database state: the five tables, a fresh-id counter standing for
`gen_random_uuid()`, and a logical clock standing for `now()`. -/
structure DB where
  conversations : List Conversation
  conversation_messages : List ConversationMessage
  negotiations : List Negotiation
  profiles : List Profile
  products : List Product
  nextId : Nat
  now : Nat
deriving Repr, DecidableEq

/-- The email local part, element 0 of the split at `@`: the characters
before the first `@` (the whole string when there is no `@`). -/
def emailLocalPart (e : String) : String :=
  String.mk (e.data.takeWhile (fun c => c ≠ '@'))

/-- Model of `ensureUserProfile` (profile utilities): look the profile up
by `user_id`; if absent, insert one whose `full_name` is the email local
part (the piece before the first `@`) when a non-empty email is given, and
`"User " + userId.slice(0, 8)` otherwise.  JavaScript truthiness makes the
empty string take the fallback branch. -/
def ensureUserProfile (userId : String) (userEmail : Option String) (db : DB) : DB :=
  match db.profiles.find? (fun p => p.user_id == userId) with
  | some _ => db
  | none =>
    let displayName :=
      match userEmail with
      | some e => if e = "" then "User " ++ userId.take 8 else emailLocalPart e
      | none => "User " ++ userId.take 8
    { db with profiles := db.profiles ++ [{ user_id := userId, full_name := displayName, email := userEmail }] }

/-- Insert a row into `conversation_messages` and run the
`update_conversation_last_message` trigger: the `last_message_at` of the
parent conversation is set to the `created_at` of the new row.  Row id and
timestamp come from the database (`gen_random_uuid()` / `now()`). -/
def insertMessageRow (conversationId : Nat) (senderId body mtype : String) (db : DB) : DB :=
  let msg : ConversationMessage :=
    { id := db.nextId, conversation_id := conversationId, sender_id := senderId,
      message := body, message_type := mtype, is_read := false, created_at := db.now }
  { db with
    conversation_messages := db.conversation_messages ++ [msg],
    conversations := db.conversations.map
      (fun c => if c.id == conversationId then { c with last_message_at := msg.created_at } else c),
    nextId := db.nextId + 1,
    now := db.now + 1 }

/-- Model of `handleContactSeller` (ProductPage.tsx), the contact-seller action of
the Conversation Store contract: reject self-contact with the user-facing
error, otherwise look the conversation up by the (buyer, seller, product)
triple and reuse it, creating it only when absent.  Returns the
conversation id (the row the database holds after the call) and the new
database state. -/
def findOrCreateConversation (buyerId sellerId productId : String) (db : DB) :
    Except String Nat × DB :=
  if buyerId == sellerId then
    (Except.error "You can\x27t contact yourself!", db)
  else
    match db.conversations.find?
        (fun c => c.buyer_id == buyerId && c.seller_id == sellerId && c.product_id == productId) with
    | some c => (Except.ok c.id, db)
    | none =>
      let c : Conversation :=
        { id := db.nextId, buyer_id := buyerId, seller_id := sellerId,
          product_id := productId, last_message_at := db.now, created_at := db.now }
      (Except.ok c.id,
       { db with conversations := db.conversations ++ [c],
                 nextId := db.nextId + 1, now := db.now + 1 })

/-- Model of `handleNegotiation` (ProductPage.tsx), the `proposePrice`
operation of the Negotiation Workflow: a non-positive proposed price fails validation before any
storage call; otherwise a pending negotiation row is inserted.  There is
no buyer == seller check on this path. -/
def proposePrice (productId buyerId sellerId : String)
    (originalPrice proposedPrice : Int) (note : String) (db : DB) :
    Except String Nat × DB :=
  if proposedPrice ≤ 0 then
    (Except.error "Please enter a valid price", db)
  else
    let n : Negotiation :=
      { id := db.nextId, product_id := productId, buyer_id := buyerId, seller_id := sellerId,
        original_price := originalPrice, proposed_price := proposedPrice,
        message := note, status := "pending", created_at := db.now, updated_at := db.now }
    (Except.ok n.id,
     { db with negotiations := db.negotiations ++ [n],
               nextId := db.nextId + 1, now := db.now + 1 })

/-- A negotiation decision: the two buttons of the negotiations tab. -/
inductive NegAction where
  | accept
  | reject
deriving Repr, DecidableEq

/-- The status string written for a decision. -/
def negStatusOf : NegAction → String
  | NegAction.accept => "accepted"
  | NegAction.reject => "rejected"

/-- Product name as the optional `products(name)` join delivers it. -/
def productName? (db : DB) (productId : String) : Option String :=
  (db.products.find? (fun p => p.id == productId)).map (fun p => p.name)

/-- The buyer-facing notice `handleNegotiationAction` composes
(template literals of NegotiationsTab.tsx; a missing product join renders
as the string "undefined", as JavaScript interpolation would). -/
def negotiationNotice (act : NegAction) (proposedPrice : Int) (productNameStr : String) : String :=
  match act with
  | NegAction.accept =>
      "Great news! Your offer of $" ++ toString proposedPrice ++ " for " ++ productNameStr ++
        " has been accepted! You can now add it to your cart at the negotiated price."
  | NegAction.reject =>
      "Your offer of $" ++ toString proposedPrice ++ " for " ++ productNameStr ++
        " has been rejected. You can try making a new offer."

/-- Model of `handleNegotiationAction` (NegotiationsTab.tsx), the
`resolveNegotiation` operation of the Negotiation Workflow, run by the signed-in seller:

1. find the negotiation in the fetched list (the negotiations of the seller);
2. update its status and `updated_at` (the row-level policy lets a
   participant update the row);
3. look up the conversation by the buyer and product of the negotiation
   (equality filters on buyer_id and product_id only — the seller is not
   part of the lookup) and insert a system message there, creating the
   conversation first when none exists.

No status guard is performed: the pending check lives only in the UI,
which renders the accept / reject buttons solely for pending rows. -/
def handleNegotiationAction (sellerId : String) (negotiationId : Nat) (act : NegAction) (db : DB) : DB :=
  match (db.negotiations.filter (fun n => n.seller_id == sellerId)).find?
      (fun n => n.id == negotiationId) with
  | none => db
  | some n =>
    let db1 : DB :=
      { db with negotiations := db.negotiations.map (fun m =>
          if m.id == negotiationId && (sellerId == m.buyer_id || sellerId == m.seller_id) then
            { m with status := negStatusOf act, updated_at := db.now }
          else m) }
    let notice := negotiationNotice act n.proposed_price ((productName? db n.product_id).getD "undefined")
    match db1.conversations.find?
        (fun c => c.buyer_id == n.buyer_id && c.product_id == n.product_id) with
    | some conv => insertMessageRow conv.id sellerId notice "system" db1
    | none =>
      let conv : Conversation :=
        { id := db1.nextId, buyer_id := n.buyer_id, seller_id := sellerId,
          product_id := n.product_id, last_message_at := db1.now, created_at := db1.now }
      let db2 : DB :=
        { db1 with conversations := db1.conversations ++ [conv],
                   nextId := db1.nextId + 1, now := db1.now + 1 }
      insertMessageRow conv.id sellerId notice "system" db2

/-- Model of the JavaScript trim call: strip whitespace from both ends. -/
def jsTrim (s : String) : String :=
  String.mk (((s.data.dropWhile Char.isWhitespace).reverse.dropWhile Char.isWhitespace).reverse)

/-- Model of `sendMessage` (ChatInterface.tsx): an empty (all-whitespace) draft is
rejected before any storage call; otherwise the trimmed text is inserted
as a plain message (`message_type` takes the column default "text"), and
the storage trigger updates `last_message_at` on the conversation. -/
def sendMessage (conversationId : Nat) (senderId body : String) (db : DB) : DB :=
  if jsTrim body == "" then db
  else insertMessageRow conversationId senderId (jsTrim body) "text" db

/-- A sequence of `sendMessage` calls into one conversation, oldest
first: each element is (sender, draft text). -/
def sendMessages (conversationId : Nat) (calls : List (String × String)) (db : DB) : DB :=
  calls.foldl (fun d call => sendMessage conversationId call.1 call.2 d) db

/-- Look a conversation up by id. -/
def convLookup (db : DB) (conversationId : Nat) : Option Conversation :=
  db.conversations.find? (fun c => c.id == conversationId)

/-- The messages of one conversation, in insertion order. -/
def messagesOf (db : DB) (conversationId : Nat) : List ConversationMessage :=
  db.conversation_messages.filter (fun m => m.conversation_id == conversationId)

/-- Row-level-security policy "Users can update their own messages"
(migration 20250624…): an UPDATE issued while signed in as `uid` can only
touch rows whose `sender_id` is `uid`. -/
def rlsCanUpdateMessage (uid : String) (m : ConversationMessage) : Bool :=
  uid == m.sender_id

/-- A derived notification entry (notification provider): `id` carries the
`msg-` / `neg-` prefix of the underlying row. -/
structure NotificationEntry where
  id : String
  ntype : String
  title : String
  message : String
  isRead : Bool
  createdAt : Nat
deriving Repr, DecidableEq

/-- The message half of `fetchNotifications`: unread messages not sent by
the user, joined with their conversation (and its product name), kept only
when the user is the buyer or seller of the conversation. -/
def messageNotificationEntries (uid : String) (db : DB) : List NotificationEntry :=
  (db.conversation_messages.filter (fun m => m.is_read == false && m.sender_id != uid)).filterMap
    (fun m =>
      match db.conversations.find? (fun c => c.id == m.conversation_id) with
      | none => none
      | some c =>
        if c.buyer_id == uid || c.seller_id == uid then
          let isSystem := m.message_type == "system"
          some { id := "msg-" ++ toString m.id,
                 ntype := if isSystem then "negotiation" else "message",
                 title := if isSystem then "Negotiation Update" else "New Message",
                 message := if isSystem then m.message
                            else "New message about " ++ ((productName? db c.product_id).getD "a product"),
                 isRead := m.is_read,
                 createdAt := m.created_at }
        else none)

/-- The negotiation half of `fetchNotifications`: the pending
negotiations of the user as seller, always unread. -/
def negotiationNotificationEntries (uid : String) (db : DB) : List NotificationEntry :=
  (db.negotiations.filter (fun n => n.status == "pending" && n.seller_id == uid)).map
    (fun n =>
      { id := "neg-" ++ toString n.id,
        ntype := "negotiation",
        title := "New Price Negotiation",
        message := "New offer for " ++ ((productName? db n.product_id).getD "undefined") ++
          ": $" ++ toString n.proposed_price,
        isRead := false,
        createdAt := n.created_at })

/-- The sort comparator of `fetchNotifications`: newer first. -/
def newerFirst (a b : NotificationEntry) : Prop :=
  b.createdAt ≤ a.createdAt

instance : DecidableRel newerFirst := fun a b => Nat.decLe b.createdAt a.createdAt

instance : IsTotal NotificationEntry newerFirst :=
  ⟨fun a b => Nat.le_total b.createdAt a.createdAt⟩

instance : IsTrans NotificationEntry newerFirst :=
  ⟨fun _ _ _ hab hbc => Nat.le_trans hbc hab⟩

/-- Model of `fetchNotifications` (notification provider): gather both kinds of
entries and sort by creation date descending. -/
def fetchNotifications (uid : String) (db : DB) : List NotificationEntry :=
  List.insertionSort newerFirst
    (messageNotificationEntries uid db ++ negotiationNotificationEntries uid db)

/-- Model of `unreadCount` (notification provider, line
`notifications.filter(n => !n.isRead).length`). -/
def unreadCount (notifs : List NotificationEntry) : Nat :=
  (notifs.filter (fun n => !n.isRead)).length

/-- Model of the JavaScript startsWith test over the underlying characters. -/
def jsStartsWith (s pre : String) : Bool :=
  pre.data.isPrefixOf s.data

/-- Remove the first occurrence of `pat` from a character list — the
JavaScript replace call with an empty replacement string, which replaces
only the first occurrence. -/
def removeFirstOcc (pat : List Char) : List Char → List Char
  | [] => []
  | c :: cs => if pat.isPrefixOf (c :: cs) then (c :: cs).drop pat.length
               else c :: removeFirstOcc pat cs

/-- Model of the JavaScript replace call with an empty replacement
(first occurrence only). -/
def jsReplaceOnce (s pat : String) : String :=
  String.mk (removeFirstOcc pat.data s.data)

/-- Model of `markAsRead` (notification provider): for a `msg-`-prefixed id, issue a
persistent `is_read := true` update on that message (subject to the
row-level policy); any other id touches no table.  In memory, the entry
with the given id is flagged read. -/
def markAsRead (uid : String) (id : String) (db : DB) (notifs : List NotificationEntry) :
    DB × List NotificationEntry :=
  let db' :=
    if jsStartsWith id "msg-" then
      let messageId := jsReplaceOnce id "msg-"
      { db with conversation_messages := db.conversation_messages.map (fun m =>
          if toString m.id == messageId && rlsCanUpdateMessage uid m then
            { m with is_read := true }
          else m) }
    else db
  (db', notifs.map (fun n => if n.id == id then { n with isRead := true } else n))

/-- Model of `markAllAsRead` (notification provider): issue a persistent update
setting `is_read := true` on every message whose sender is not the caller;
the row-level policy restricts the update to rows the caller sent.  (In
memory, every entry is flagged read.) -/
def markAllAsRead (uid : String) (db : DB) : DB :=
  { db with conversation_messages := db.conversation_messages.map (fun m =>
      if m.sender_id != uid && rlsCanUpdateMessage uid m then { m with is_read := true } else m) }

/-- The structured payload a `product_mention` message carries, as the
renderer inspects it (`productData.type`, `productData.product`); the
fields an arbitrary parsed JSON value may lack are optional. -/
structure ProductInfo where
  id : String
  name : String
  price : Int
  image_url : String
deriving Repr, DecidableEq

structure ProductPayload where
  ptype : Option String
  product : Option ProductInfo
deriving Repr, DecidableEq

/-- What `renderMessage` (ChatInterface.tsx) produces for one message:
either the rich product card or the plain bubble showing the raw text. -/
inductive Rendered where
  | productCard (info : ProductInfo)
  | plainText (text : String)
deriving Repr, DecidableEq

/-- Model of `renderMessage` (ChatInterface.tsx), with `JSON.parse` — an
external platform primitive wrapped by the try/catch of
`parseProductMessage` — passed
in as `parse` returning `none` on a parse failure: a `product_mention`
message whose body parses to a payload with type equal to `product_mention`
and a product object renders as a product card; every other message, the
malformed ones included, renders as a plain bubble with the raw text. -/
def renderMessage (parse : String → Option ProductPayload) (m : ConversationMessage) : Rendered :=
  if m.message_type == "product_mention" then
    match parse m.message with
    | some pd =>
      if pd.ptype == some "product_mention" && pd.product.isSome then
        Rendered.productCard (pd.product.getD { id := "", name := "", price := 0, image_url := "" })
      else
        Rendered.plainText m.message
    | none => Rendered.plainText m.message
  else
    Rendered.plainText m.message

/-! ## Concrete states used by witnesses and counterexamples -/

/-- An empty database. -/
def emptyDB : DB :=
  { conversations := [], conversation_messages := [], negotiations := [],
    profiles := [], products := [], nextId := 0, now := 0 }

/-- A store with one product, a negotiation already accepted by seller
"s", and the conversation already carrying the system notice that first
resolution produced. -/
def dbResolved : DB :=
  { conversations := [{ id := 10, buyer_id := "b", seller_id := "s", product_id := "p1",
                        last_message_at := 5, created_at := 1 }],
    conversation_messages := [{ id := 20, conversation_id := 10, sender_id := "s",
                                message := "prior system notice", message_type := "system",
                                is_read := false, created_at := 5 }],
    negotiations := [{ id := 1, product_id := "p1", buyer_id := "b", seller_id := "s",
                       original_price := 100, proposed_price := 80, message := "",
                       status := "accepted", created_at := 0, updated_at := 4 }],
    profiles := [], products := [{ id := "p1", name := "Widget", price := 100, seller_id := "s" }],
    nextId := 21, now := 6 }

/-- A store with one pending negotiation and no conversation yet. -/
def dbPending : DB :=
  { conversations := [],
    conversation_messages := [],
    negotiations := [{ id := 1, product_id := "p1", buyer_id := "b", seller_id := "s",
                       original_price := 100, proposed_price := 80, message := "",
                       status := "pending", created_at := 0, updated_at := 0 }],
    profiles := [], products := [{ id := "p1", name := "Widget", price := 100, seller_id := "s" }],
    nextId := 2, now := 3 }

/-- A store with one conversation and one unread message sent by "v". -/
def dbUnread : DB :=
  { conversations := [{ id := 0, buyer_id := "u", seller_id := "v", product_id := "p1",
                        last_message_at := 2, created_at := 1 }],
    conversation_messages := [{ id := 1, conversation_id := 0, sender_id := "v",
                                message := "hello", message_type := "text",
                                is_read := false, created_at := 2 }],
    negotiations := [],
    profiles := [], products := [{ id := "p1", name := "Widget", price := 100, seller_id := "v" }],
    nextId := 2, now := 3 }

/-- The in-memory notification list matching `dbPending` for seller "s". -/
def notifsPending : List NotificationEntry :=
  [{ id := "neg-1", ntype := "negotiation", title := "New Price Negotiation",
     message := "New offer for Widget: $80", isRead := false, createdAt := 0 }]

/-- The state-dependent invariant of claim C5: the `last_message_at` of
the conversation equals the `created_at` of its latest message. -/
def lastMessageInvariant (conversationId : Nat) (db : DB) : Prop :=
  ∃ c, convLookup db conversationId = some c
    ∧ (messagesOf db conversationId).getLast?.map (fun m => m.created_at) = some c.last_message_at

/-! ## Shared lemmas about the storage layer -/

/-- The `last_message_at` rewrite of the trigger does not change which
conversation a lookup by id finds. -/
lemma convLookup_insertMessageRow (conversationId : Nat) (senderId body mtype : String) (db : DB) :
    convLookup (insertMessageRow conversationId senderId body mtype db) conversationId
      = (convLookup db conversationId).map (fun c => { c with last_message_at := db.now }) := by
  unfold convLookup insertMessageRow
  rw [List.find?_map]
  have hcomp : ((fun c : Conversation => c.id == conversationId) ∘
      (fun c => if c.id == conversationId then { c with last_message_at := db.now } else c))
      = (fun c : Conversation => c.id == conversationId) := by
    funext c
    by_cases h : (c.id == conversationId) = true
    · simp [Function.comp, h]
    · simp [Function.comp, h]
  rw [hcomp]
  cases hc : List.find? (fun c => c.id == conversationId) db.conversations with
  | none => rfl
  | some c =>
    have hid : c.id = conversationId := by simpa using List.find?_some hc
    simp [hid]

/-- Inserting a message appends exactly that row to the message list of
the conversation. -/
lemma messagesOf_insertMessageRow (conversationId : Nat) (senderId body mtype : String) (db : DB) :
    messagesOf (insertMessageRow conversationId senderId body mtype db) conversationId
      = messagesOf db conversationId ++
          [{ id := db.nextId, conversation_id := conversationId, sender_id := senderId,
             message := body, message_type := mtype, is_read := false, created_at := db.now }] := by
  unfold messagesOf insertMessageRow
  rw [List.filter_append]
  simp

/-- After an insert into an existing conversation, `last_message_at`
equals the `created_at` of the latest message: the trigger restores the
invariant whatever the previous state was. -/
lemma insertMessageRow_invariant (conversationId : Nat) (senderId body mtype : String) (db : DB)
    (h : (convLookup db conversationId).isSome) :
    lastMessageInvariant conversationId (insertMessageRow conversationId senderId body mtype db) := by
  rcases Option.isSome_iff_exists.mp h with ⟨c, hc⟩
  refine ⟨{ c with last_message_at := db.now }, ?_, ?_⟩
  · rw [convLookup_insertMessageRow, hc]; rfl
  · rw [messagesOf_insertMessageRow]
    simp [List.getLast?_concat]

/-- The invariant implies the conversation exists. -/
lemma lastMessageInvariant_isSome {conversationId : Nat} {db : DB}
    (h : lastMessageInvariant conversationId db) : (convLookup db conversationId).isSome := by
  rcases h with ⟨c, hc, _⟩
  rw [hc]; rfl

/-- One `sendMessage` call keeps the invariant (an all-whitespace draft
leaves the state untouched; a real send re-establishes it). -/
lemma sendMessage_preserves_invariant (conversationId : Nat) (senderId body : String) (db : DB)
    (h : lastMessageInvariant conversationId db) :
    lastMessageInvariant conversationId (sendMessage conversationId senderId body db) := by
  unfold sendMessage
  by_cases hb : (jsTrim body == "") = true
  · rw [if_pos hb]; exact h
  · rw [if_neg hb]
    exact insertMessageRow_invariant _ _ _ _ _ (lastMessageInvariant_isSome h)

/-- A whole sequence of `sendMessage` calls keeps the invariant. -/
lemma sendMessages_preserve_invariant (conversationId : Nat) (calls : List (String × String)) :
    ∀ db : DB, lastMessageInvariant conversationId db →
      lastMessageInvariant conversationId (sendMessages conversationId calls db) := by
  induction calls with
  | nil => intro db h; exact h
  | cons hd tl ih =>
    intro db h
    exact ih _ (sendMessage_preserves_invariant conversationId hd.1 hd.2 db h)

/-! ## Claim C3 -/

/-- C3: `proposePrice` called with a proposed price equal to 0 or negative
fails with the validation error and inserts no negotiation row — the
returned state is the input state, unchanged. -/
theorem proposePrice_nonpositive_rejected (productId buyerId sellerId : String)
    (originalPrice proposedPrice : Int) (note : String) (db : DB)
    (h : proposedPrice ≤ 0) :
    proposePrice productId buyerId sellerId originalPrice proposedPrice note db
      = (Except.error "Please enter a valid price", db) := by
  simp [proposePrice, h]

/-- C3 witness: a zero offer on a concrete store is rejected unchanged. -/
theorem proposePrice_nonpositive_rejected_witness :
    proposePrice "p1" "b" "s" 100 0 "" emptyDB
      = (Except.error "Please enter a valid price", emptyDB) :=
  proposePrice_nonpositive_rejected "p1" "b" "s" 100 0 "" emptyDB (by decide)

/-! ## Claim C2 -/

/-- C2 counterexample: with buyerId = sellerId = "u" and a positive
offer, `proposePrice` does not fail — it inserts the self-dealing
negotiation row, so the self-dealing case does reach the database. -/
theorem proposePrice_self_dealing_reaches_storage :
    (proposePrice "p1" "u" "u" 100 50 "" emptyDB).1 = Except.ok 0
    ∧ (proposePrice "p1" "u" "u" 100 50 "" emptyDB).2.negotiations.length = 1 :=
  ⟨rfl, rfl⟩

/-- C2 amended: `findOrCreateConversation` rejects buyerId = sellerId with
the user-facing error and leaves the store untouched, but `proposePrice`
performs no self-dealing check: with a positive price it inserts the
negotiation row even when buyerId = sellerId. -/
theorem self_dealing_checked_only_on_contact (b p note : String) (db : DB)
    (originalPrice proposedPrice : Int) :
    findOrCreateConversation b b p db = (Except.error "You can\x27t contact yourself!", db)
    ∧ (0 < proposedPrice →
        (proposePrice p b b originalPrice proposedPrice note db).2.negotiations.length
          = db.negotiations.length + 1) := by
  constructor
  · simp [findOrCreateConversation]
  · intro hp
    simp [proposePrice, not_le.mpr hp]

/-- C2 amended witness: at concrete arguments, the self-contact is
rejected while the self-negotiation row is inserted. -/
theorem self_dealing_checked_only_on_contact_witness :
    findOrCreateConversation "u" "u" "p1" emptyDB
        = (Except.error "You can\x27t contact yourself!", emptyDB)
    ∧ (proposePrice "p1" "u" "u" 100 50 "" emptyDB).2.negotiations.length
        = emptyDB.negotiations.length + 1 :=
  ⟨(self_dealing_checked_only_on_contact "u" "p1" "" emptyDB 100 50).1,
   (self_dealing_checked_only_on_contact "u" "p1" "" emptyDB 100 50).2 (by decide)⟩

/-! ## Claim C4 -/

/-- C4: for distinct buyer and seller, `findOrCreateConversation` called
twice with identical arguments returns the same conversation id both
times — the second call finds the conversation for the (buyer, seller,
product) triple instead of creating a new one, and changes nothing. -/
theorem findOrCreateConversation_idempotent (b s p : String) (db : DB) (h : b ≠ s) :
    ∃ id db',
      findOrCreateConversation b s p db = (Except.ok id, db')
      ∧ findOrCreateConversation b s p db' = (Except.ok id, db') := by
  have hbs : (b == s) = false := beq_eq_false_iff_ne.mpr h
  cases hfind : db.conversations.find?
      (fun c => c.buyer_id == b && c.seller_id == s && c.product_id == p) with
  | some c =>
    exact ⟨c.id, db, by simp [findOrCreateConversation, hbs, hfind],
           by simp [findOrCreateConversation, hbs, hfind]⟩
  | none =>
    refine ⟨db.nextId,
      { db with
        conversations := db.conversations ++
          [{ id := db.nextId, buyer_id := b, seller_id := s, product_id := p,
             last_message_at := db.now, created_at := db.now }],
        nextId := db.nextId + 1, now := db.now + 1 },
      by simp [findOrCreateConversation, hbs, hfind], ?_⟩
    simp [findOrCreateConversation, hbs, List.find?_append, hfind, List.find?]

/-- C4 witness: two concrete calls on an empty store agree on the id. -/
theorem findOrCreateConversation_idempotent_witness :
    ∃ id db',
      findOrCreateConversation "b" "s" "p1" emptyDB = (Except.ok id, db')
      ∧ findOrCreateConversation "b" "s" "p1" db' = (Except.ok id, db') :=
  findOrCreateConversation_idempotent "b" "s" "p1" emptyDB (by decide)

/-! ## Claim C8 -/

/-- C8: `ensureUserProfile` is idempotent — an existing profile row makes
it a no-op, and running it twice equals running it once; when the row is
absent it inserts exactly one profile whose `full_name` is the local part
of the email (the piece before the first `@`), falling back to `"User "`
plus the first 8 characters of the user id when no (non-empty) email is
provided. -/
theorem ensureUserProfile_spec (u : String) (e : Option String) (db : DB) :
    ((db.profiles.find? (fun p => p.user_id == u)).isSome → ensureUserProfile u e db = db)
    ∧ (db.profiles.find? (fun p => p.user_id == u) = none →
        (ensureUserProfile u e db).profiles = db.profiles ++
          [{ user_id := u,
             full_name :=
               match e with
               | some s => if s = "" then "User " ++ u.take 8 else emailLocalPart s
               | none => "User " ++ u.take 8,
             email := e }])
    ∧ ensureUserProfile u e (ensureUserProfile u e db) = ensureUserProfile u e db := by
  refine ⟨?_, ?_, ?_⟩
  · intro hsome
    cases hfind : db.profiles.find? (fun p => p.user_id == u) with
    | some pr => simp [ensureUserProfile, hfind]
    | none => rw [hfind] at hsome; simp at hsome
  · intro hnone
    simp [ensureUserProfile, hnone]
  · cases hfind : db.profiles.find? (fun p => p.user_id == u) with
    | some pr => simp [ensureUserProfile, hfind]
    | none =>
      simp only [ensureUserProfile, hfind]
      simp [List.find?_append, hfind, List.find?]

/-- C8 witness: on an empty store, the profile for `alice@example.com` is
created once with full name "alice", and a repeat run changes nothing. -/
theorem ensureUserProfile_spec_witness :
    (ensureUserProfile "user-123456789" (some "alice@example.com") emptyDB).profiles
      = emptyDB.profiles ++
        [{ user_id := "user-123456789", full_name := "alice", email := some "alice@example.com" }]
    ∧ ensureUserProfile "user-123456789" (some "alice@example.com")
        (ensureUserProfile "user-123456789" (some "alice@example.com") emptyDB)
      = ensureUserProfile "user-123456789" (some "alice@example.com") emptyDB := by
  have h := ensureUserProfile_spec "user-123456789" (some "alice@example.com") emptyDB
  refine ⟨?_, h.2.2⟩
  have h2 := h.2.1 (by decide)
  rw [h2]
  decide

/-! ## Claim C7 -/

/-- C7: the bulk mark-all-read persists nothing.  The code issues an
update filtered to `sender_id != U`, but the row-level policy "Users can
update their own messages" only lets U update rows with `sender_id = U`;
the two filters are disjoint, so the database state is returned unchanged
for every caller and every state — in particular, on `dbUnread` the
message sent by "v" is still unread after "u" marks all read, contrary to
the specified behaviour. -/
theorem markAllAsRead_persists_nothing :
    (∀ uid db, markAllAsRead uid db = db)
    ∧ ((markAllAsRead "u" dbUnread).conversation_messages.any
        (fun m => m.sender_id != "u" && !m.is_read)) = true := by
  have hall : ∀ uid db, markAllAsRead uid db = db := by
    intro uid db
    have hmap : db.conversation_messages.map (fun m =>
        if m.sender_id != uid && rlsCanUpdateMessage uid m then { m with is_read := true } else m)
        = db.conversation_messages := by
      rw [List.map_congr_left (g := id), List.map_id]
      intro m _
      by_cases h : m.sender_id = uid
      · simp [rlsCanUpdateMessage, h]
      · simp [rlsCanUpdateMessage, h, Ne.symm h]
    unfold markAllAsRead
    rw [hmap]
  exact ⟨hall, by rw [hall]; decide⟩

/-! ## Claim C10 -/

/-- C10: `markAsRead` on an id that does not start with `msg-` (such as a
`neg-` pending-negotiation id) performs no database write at all — the
whole store, negotiations and message read flags included, is returned
unchanged — and only the in-memory entry with that id is flagged read.
Contrapositively, a call that changes the database can only have been made
with a `msg-`-prefixed id. -/
theorem markAsRead_non_msg_is_memory_only (uid id : String) (db : DB)
    (notifs : List NotificationEntry) (h : jsStartsWith id "msg-" = false) :
    (markAsRead uid id db notifs).1 = db
    ∧ (markAsRead uid id db notifs).2
        = notifs.map (fun n => if n.id = id then { n with isRead := true } else n) := by
  constructor
  · simp [markAsRead, h]
  · simp only [markAsRead]
    refine List.map_congr_left ?_
    intro n _
    by_cases hn : n.id = id
    · simp [hn]
    · simp [hn]

/-- C10 witness: marking the pending-negotiation notification `neg-1`
read leaves the store of `dbPending` untouched (the negotiation stays
pending) and flags only the in-memory entry. -/
theorem markAsRead_non_msg_is_memory_only_witness :
    (markAsRead "s" "neg-1" dbPending notifsPending).1 = dbPending
    ∧ (markAsRead "s" "neg-1" dbPending notifsPending).2
        = notifsPending.map (fun n => if n.id = "neg-1" then { n with isRead := true } else n) :=
  markAsRead_non_msg_is_memory_only "s" "neg-1" dbPending notifsPending (by decide)

/-! ## Claim C9 -/

/-- C9: rendering degrades gracefully.  For any parse function standing
for `JSON.parse` (with the try/catch of `parseProductMessage` returning
`none` on failure): a `product_mention` message whose body fails to parse,
or parses to anything other than the expected structured product payload,
renders as a plain message showing the raw text; and every message,
whatever its body, renders to one of the two defined outputs (a product
card or the plain raw text) — the renderer is total and never throws. -/
theorem renderMessage_degrades_gracefully (parse : String → Option ProductPayload)
    (m : ConversationMessage) :
    (m.message_type = "product_mention" →
      (parse m.message = none ∨
        ∀ pd, parse m.message = some pd →
          ¬(pd.ptype = some "product_mention" ∧ pd.product.isSome = true)) →
      renderMessage parse m = Rendered.plainText m.message)
    ∧ ((∃ info, renderMessage parse m = Rendered.productCard info)
        ∨ renderMessage parse m = Rendered.plainText m.message) := by
  constructor
  · intro hty hmal
    cases hp : parse m.message with
    | none => simp [renderMessage, hty, hp]
    | some pd =>
      rcases hmal with hnone | hshape
      · rw [hp] at hnone; exact absurd hnone (by simp)
      · have hcond : (pd.ptype == some "product_mention" && pd.product.isSome) = false := by
          have := hshape pd hp
          rcases hpt : pd.ptype == some "product_mention" with _ | _
          · simp
          · rcases hps : pd.product.isSome with _ | _
            · simp
            · exact absurd ⟨by exact beq_iff_eq.mp hpt, hps⟩ this
        simp [renderMessage, hty, hp, hcond]
  · by_cases hty : m.message_type = "product_mention"
    · cases hp : parse m.message with
      | none => right; simp [renderMessage, hty, hp]
      | some pd =>
        by_cases hcond : (pd.ptype == some "product_mention" && pd.product.isSome) = true
        · left
          refine ⟨pd.product.getD { id := "", name := "", price := 0, image_url := "" }, ?_⟩
          simp [renderMessage, hty, hp, hcond]
        · right
          simp [renderMessage, hty, hp, Bool.not_eq_true _ ▸ hcond]
    · right
      have : (m.message_type == "product_mention") = false := beq_eq_false_iff_ne.mpr hty
      simp [renderMessage, this]

/-- C9 witness: a `product_mention` message whose body is not valid JSON
(every parse attempt yields `none`) renders as the raw text, and in
particular renders to a defined output. -/
theorem renderMessage_degrades_gracefully_witness :
    renderMessage (fun _ => none)
      { id := 0, conversation_id := 0, sender_id := "v", message := "not json",
        message_type := "product_mention", is_read := false, created_at := 0 }
      = Rendered.plainText "not json" :=
  (renderMessage_degrades_gracefully (fun _ => none)
      { id := 0, conversation_id := 0, sender_id := "v", message := "not json",
        message_type := "product_mention", is_read := false, created_at := 0 }).1
    rfl (Or.inl rfl)

/-! ## Claim C6 -/

/-- C6: for every user and store, the notification list computed by
`fetchNotifications` has `unreadCount` equal to the number of entries with
`isRead = false`; it is sorted non-increasing by creation time; and every
entry that does not derive from an unread message — that is, every entry
derived from a pending negotiation — carries `isRead = false`. -/
theorem fetchNotifications_spec (uid : String) (db : DB) :
    unreadCount (fetchNotifications uid db)
      = (fetchNotifications uid db).countP (fun n => n.isRead == false)
    ∧ List.Sorted newerFirst (fetchNotifications uid db)
    ∧ ∀ e ∈ fetchNotifications uid db,
        e ∈ messageNotificationEntries uid db ∨ e.isRead = false := by
  refine ⟨?_, ?_, ?_⟩
  · rw [unreadCount, List.countP_eq_length_filter]
    refine congrArg _ (List.filter_congr ?_)
    intro n _
    cases hn : n.isRead <;> rfl
  · exact List.sorted_insertionSort newerFirst _
  · intro e he
    have hmem : e ∈ messageNotificationEntries uid db ++ negotiationNotificationEntries uid db :=
      (List.perm_insertionSort newerFirst _).mem_iff.mp he
    rcases List.mem_append.mp hmem with hmsg | hneg
    · exact Or.inl hmsg
    · right
      rcases List.mem_map.mp hneg with ⟨n, _, hn⟩
      rw [← hn]

/-- C6 witness: the property instantiated on the pending-negotiation
store for seller "s". -/
theorem fetchNotifications_spec_witness :
    unreadCount (fetchNotifications "s" dbPending)
      = (fetchNotifications "s" dbPending).countP (fun n => n.isRead == false)
    ∧ List.Sorted newerFirst (fetchNotifications "s" dbPending) :=
  ⟨(fetchNotifications_spec "s" dbPending).1, (fetchNotifications_spec "s" dbPending).2.1⟩

/-! ## Claim C5 -/

/-- C5: after any non-empty sequence of successful `sendMessage` calls
into an existing conversation, the `last_message_at` of the conversation
equals the `created_at` of its latest message — the update being performed
by the insert trigger of the storage layer on every append. -/
theorem sendMessages_last_message_at (conversationId : Nat) (calls : List (String × String))
    (db : DB) (hne : calls ≠ []) (hbodies : ∀ cl ∈ calls, (jsTrim cl.2 == "") = false)
    (hconv : (convLookup db conversationId).isSome) :
    ∃ c, convLookup (sendMessages conversationId calls db) conversationId = some c
      ∧ (messagesOf (sendMessages conversationId calls db) conversationId).getLast?.map
          (fun m => m.created_at) = some c.last_message_at := by
  cases calls with
  | nil => exact absurd rfl hne
  | cons hd tl =>
    have hstep : lastMessageInvariant conversationId (sendMessage conversationId hd.1 hd.2 db) := by
      unfold sendMessage
      rw [if_neg (by simpa using hbodies hd (List.mem_cons_self hd tl))]
      exact insertMessageRow_invariant _ _ _ _ _ hconv
    have hfold := sendMessages_preserve_invariant conversationId tl _ hstep
    exact hfold

/-- C5 witness: one concrete send into the conversation of `dbUnread`. -/
theorem sendMessages_last_message_at_witness :
    ∃ c, convLookup (sendMessages 0 [("u", "thanks!")] dbUnread) 0 = some c
      ∧ (messagesOf (sendMessages 0 [("u", "thanks!")] dbUnread) 0).getLast?.map
          (fun m => m.created_at) = some c.last_message_at :=
  sendMessages_last_message_at 0 [("u", "thanks!")] dbUnread (by decide) (by decide) (by decide)

/-! ## Claim C1 -/

/-- C1 counterexample: `handleNegotiationAction` carries no status guard.
On `dbResolved` the negotiation is already accepted and its conversation
already holds the one system message of the first resolution; invoking the
resolve action again appends a second system message — the
pending-to-resolved transition is not one-shot at this level (only the UI
hides the buttons for non-pending rows). -/
theorem resolve_again_duplicates_system_message :
    ((dbResolved.negotiations.find? (fun n => n.id == 1)).map (fun n => n.status)
        = some "accepted")
    ∧ ((dbResolved.conversation_messages.filter
        (fun m => m.message_type == "system")).length = 1)
    ∧ (((handleNegotiationAction "s" 1 NegAction.accept dbResolved).conversation_messages.filter
        (fun m => m.message_type == "system")).length = 2) :=
  ⟨rfl, rfl, rfl⟩

/-- The negotiation-status half of a resolve: every negotiation row with
the resolved id that belongs to the acting seller carries the decided
status afterwards. -/
lemma negotiations_status_after_update (sellerId : String) (negotiationId : Nat)
    (act : NegAction) (db : DB) :
    ∀ m ∈ db.negotiations.map (fun m =>
        if m.id == negotiationId && (sellerId == m.buyer_id || sellerId == m.seller_id) then
          { m with status := negStatusOf act, updated_at := db.now }
        else m),
      m.id = negotiationId → m.seller_id = sellerId → m.status = negStatusOf act := by
  intro m hm
  rcases List.mem_map.mp hm with ⟨m₀, _, rfl⟩
  by_cases hcond : (m₀.id == negotiationId && (sellerId == m₀.buyer_id || sellerId == m₀.seller_id)) = true
  · rw [if_pos hcond]
    intro _ _
    rfl
  · rw [if_neg hcond]
    intro hid hsel
    exact absurd (by simp [hid, hsel]) hcond

/-- C1 amended: resolving a negotiation found in the list of the acting
seller — in
any status — sets its status to the decision and appends exactly one
system-type message, sent by the seller, into a conversation whose buyer
and product are those of the negotiation (looked up by buyer and product, created
with this seller when absent).  The one-shot property of the claim does
not hold at this level; see the counterexample. -/
theorem handleNegotiationAction_appends_one_system_message
    (sellerId : String) (negotiationId : Nat) (act : NegAction) (db : DB) (n : Negotiation)
    (hfind : (db.negotiations.filter (fun m => m.seller_id == sellerId)).find?
        (fun m => m.id == negotiationId) = some n) :
    ∃ msg : ConversationMessage,
      (handleNegotiationAction sellerId negotiationId act db).conversation_messages
          = db.conversation_messages ++ [msg]
      ∧ msg.message_type = "system"
      ∧ msg.sender_id = sellerId
      ∧ (∃ c ∈ (handleNegotiationAction sellerId negotiationId act db).conversations,
           c.id = msg.conversation_id ∧ c.buyer_id = n.buyer_id ∧ c.product_id = n.product_id)
      ∧ (∀ m ∈ (handleNegotiationAction sellerId negotiationId act db).negotiations,
           m.id = negotiationId → m.seller_id = sellerId → m.status = negStatusOf act) := by
  simp only [handleNegotiationAction, hfind]
  cases hconv : db.conversations.find?
      (fun c => c.buyer_id == n.buyer_id && c.product_id == n.product_id) with
  | some conv =>
    have hmatch := List.find?_some hconv
    have hbuyer : conv.buyer_id = n.buyer_id := by
      have := (Bool.and_eq_true _ _).mp hmatch
      exact beq_iff_eq.mp this.1
    have hprod : conv.product_id = n.product_id := by
      have := (Bool.and_eq_true _ _).mp hmatch
      exact beq_iff_eq.mp this.2
    refine ⟨{ id := db.nextId, conversation_id := conv.id, sender_id := sellerId,
              message := negotiationNotice act n.proposed_price
                ((productName? db n.product_id).getD "undefined"),
              message_type := "system", is_read := false, created_at := db.now },
      rfl, rfl, rfl, ?_, ?_⟩
    · refine ⟨{ conv with last_message_at := db.now }, ?_, rfl, hbuyer, hprod⟩
      simp only [insertMessageRow]
      refine List.mem_map.mpr ⟨conv, List.mem_of_find?_eq_some hconv, ?_⟩
      simp
    · exact negotiations_status_after_update sellerId negotiationId act db
  | none =>
    refine ⟨{ id := db.nextId + 1, conversation_id := db.nextId, sender_id := sellerId,
              message := negotiationNotice act n.proposed_price
                ((productName? db n.product_id).getD "undefined"),
              message_type := "system", is_read := false, created_at := db.now + 1 },
      rfl, rfl, rfl, ?_, ?_⟩
    · refine ⟨{ id := db.nextId, buyer_id := n.buyer_id, seller_id := sellerId,
                product_id := n.product_id, last_message_at := db.now + 1, created_at := db.now },
        ?_, rfl, rfl, rfl⟩
      simp only [insertMessageRow]
      refine List.mem_map.mpr
        ⟨{ id := db.nextId, buyer_id := n.buyer_id, seller_id := sellerId,
           product_id := n.product_id, last_message_at := db.now, created_at := db.now },
         List.mem_append_right _ (List.mem_singleton_self _), ?_⟩
      simp
    · exact negotiations_status_after_update sellerId negotiationId act db

/-- C1 amended witness: resolving the pending negotiation of `dbPending`
(no conversation exists yet) appends exactly one system message. -/
theorem handleNegotiationAction_appends_one_system_message_witness :
    ∃ msg : ConversationMessage,
      (handleNegotiationAction "s" 1 NegAction.accept dbPending).conversation_messages
          = dbPending.conversation_messages ++ [msg]
      ∧ msg.message_type = "system"
      ∧ msg.sender_id = "s"
      ∧ (∃ c ∈ (handleNegotiationAction "s" 1 NegAction.accept dbPending).conversations,
           c.id = msg.conversation_id ∧ c.buyer_id = "b" ∧ c.product_id = "p1")
      ∧ (∀ m ∈ (handleNegotiationAction "s" 1 NegAction.accept dbPending).negotiations,
           m.id = 1 → m.seller_id = "s" → m.status = negStatusOf NegAction.accept) :=
  handleNegotiationAction_appends_one_system_message "s" 1 NegAction.accept dbPending
    { id := 1, product_id := "p1", buyer_id := "b", seller_id := "s",
      original_price := 100, proposed_price := 80, message := "",
      status := "pending", created_at := 0, updated_at := 0 }
    (by decide)

end ChattyCommerce
